import Mathlib

/-!
Shallow embedding of the TDS-challan extraction and validation core
(src/models/challan.py, src/validation/validator.py, src/extraction/pipeline.py,
src/extraction/text_extractor.py).

Modelling conventions:
* Python floats (currency amounts, confidences) are modelled as exact rationals `ℚ`.
* Python `dict[str, FieldConfidence]` is modelled as an association list with
  first-match lookup; dict-key uniqueness appears as `Nodup` hypotheses.
* Python truthiness (`not value`, `value or default`) is modelled explicitly
  (`Val.pyTruthy`, `strBlank`, `pyOrStr`).
* Mutation of a record by the validator is modelled by returning the updated
  record; the validator's `_seen_hashes` set is threaded as an explicit list.
-/

/-- Extracted field values are Python scalars: `None`, a string, or a number.
(`models.FieldConfidence.value` has type `Any`; the extractors only ever store
these three shapes.) -/
inductive Val
  | none
  | str (s : String)
  | num (q : ℚ)
deriving DecidableEq

/-- Python truthiness of a scalar: `None`, `""` and `0` are falsy. -/
def Val.pyTruthy : Val → Bool
  | .none => false
  | .str s => !s.isEmpty
  | .num q => q != 0

/-- Embeds `models.FieldConfidence`: value, confidence score, producing strategy, raw text. -/
structure FieldConfidence where
  value : Val
  confidence : ℚ
  extraction_method : String
  raw_text : Option String
deriving DecidableEq

/-- A Python `dict[str, FieldConfidence]` as an association list (insertion order,
unique keys). -/
abbrev Fields := List (String × FieldConfidence)

/-- Dictionary lookup (first binding wins; with unique keys this is dict access). -/
def lookupF : Fields → String → Option FieldConfidence
  | [], _ => Option.none
  | (k, v) :: rest, key => if k = key then some v else lookupF rest key

/-- The assignment `merged[field_name] = sec_field` on an existing key: replace the stored value. -/
def updateKey : Fields → String → FieldConfidence → Fields
  | [], _, _ => []
  | (k, w) :: rest, key, v =>
    if k = key then (key, v) :: updateKey rest key v
    else (k, w) :: updateKey rest key v

/-- One iteration of the loop body of `ExtractionPipeline._merge_fields`:
process a single `(field_name, sec_field)` item of `secondary`. -/
def mergeOne (merged : Fields) (key : String) (sec_field : FieldConfidence) : Fields :=
  match lookupF merged key with
  | Option.none => merged ++ [(key, sec_field)]
  | some pri_field =>
    if sec_field.confidence > pri_field.confidence then
      updateKey merged key sec_field
    else if sec_field.confidence = pri_field.confidence
        ∧ ¬ pri_field.value.pyTruthy ∧ sec_field.value.pyTruthy then
      updateKey merged key sec_field
    else
      merged

/-- Embeds `ExtractionPipeline._merge_fields`: start from a copy of `primary` and fold
the items of `secondary` over it. -/
def merge_fields (primary secondary : Fields) : Fields :=
  secondary.foldl (fun m kv => mergeOne m kv.1 kv.2) primary

/-- The pointwise decision `_merge_fields` makes for a field present in both maps. -/
def combineFC (pri_field sec_field : FieldConfidence) : FieldConfidence :=
  if sec_field.confidence > pri_field.confidence then sec_field
  else if sec_field.confidence = pri_field.confidence
      ∧ ¬ pri_field.value.pyTruthy ∧ sec_field.value.pyTruthy then sec_field
  else pri_field

theorem lookupF_eq_none_of_not_mem {m : Fields} {key : String}
    (h : key ∉ m.map Prod.fst) : lookupF m key = Option.none := by
  induction m with
  | nil => rfl
  | cons kv rest ih =>
    obtain ⟨k, v⟩ := kv
    simp only [List.map_cons, List.mem_cons, not_or] at h
    simp only [lookupF, if_neg (Ne.symm h.1)]
    exact ih h.2

theorem lookupF_append_left {m l : Fields} {key : String} {v : FieldConfidence}
    (h : lookupF m key = some v) : lookupF (m ++ l) key = some v := by
  induction m with
  | nil => simp [lookupF] at h
  | cons kv rest ih =>
    obtain ⟨k, w⟩ := kv
    simp only [lookupF, List.cons_append] at h ⊢
    by_cases hk : k = key
    · simpa [hk] using h
    · rw [if_neg hk] at h ⊢
      exact ih h

theorem lookupF_append_right {m l : Fields} {key : String}
    (h : lookupF m key = Option.none) : lookupF (m ++ l) key = lookupF l key := by
  induction m with
  | nil => rfl
  | cons kv rest ih =>
    obtain ⟨k, w⟩ := kv
    simp only [lookupF, List.cons_append] at h ⊢
    by_cases hk : k = key
    · rw [if_pos hk] at h; exact absurd h (by simp)
    · rw [if_neg hk] at h ⊢
      exact ih h

theorem lookupF_updateKey_self {m : Fields} {key : String} {pf v : FieldConfidence}
    (h : lookupF m key = some pf) : lookupF (updateKey m key v) key = some v := by
  induction m with
  | nil => simp [lookupF] at h
  | cons kv rest ih =>
    obtain ⟨k, w⟩ := kv
    simp only [lookupF] at h
    by_cases hk : k = key
    · simp [updateKey, if_pos hk, lookupF]
    · rw [if_neg hk] at h
      simp only [updateKey, if_neg hk, lookupF, if_neg hk]
      exact ih h

theorem lookupF_updateKey_ne {m : Fields} {key key' : String} {v : FieldConfidence}
    (h : key' ≠ key) : lookupF (updateKey m key v) key' = lookupF m key' := by
  induction m with
  | nil => rfl
  | cons kv rest ih =>
    obtain ⟨k, w⟩ := kv
    by_cases hk : k = key
    · subst hk
      simp only [updateKey, if_pos rfl, lookupF, if_neg (Ne.symm h)]
      exact ih
    · simp only [updateKey, if_neg hk, lookupF]
      by_cases hk' : k = key'
      · simp [hk']
      · rw [if_neg hk', if_neg hk']
        exact ih

theorem lookupF_mergeOne_ne {m : Fields} {key key' : String} {sf : FieldConfidence}
    (h : key' ≠ key) : lookupF (mergeOne m key sf) key' = lookupF m key' := by
  unfold mergeOne
  cases hm : lookupF m key with
  | none =>
    cases hm' : lookupF m key' with
    | none =>
      rw [lookupF_append_right hm']
      simp [lookupF, if_neg (Ne.symm h)]
    | some v => exact lookupF_append_left hm'
  | some pf =>
    dsimp only
    split_ifs with h1 h2
    · exact lookupF_updateKey_ne h
    · exact lookupF_updateKey_ne h
    · rfl

theorem lookupF_mergeOne_self {m : Fields} {key : String} {sf : FieldConfidence} :
    lookupF (mergeOne m key sf) key =
      some (match lookupF m key with
            | Option.none => sf
            | some pf => combineFC pf sf) := by
  unfold mergeOne combineFC
  cases hm : lookupF m key with
  | none =>
    rw [lookupF_append_right hm]
    simp [lookupF]
  | some pf =>
    dsimp only
    split_ifs with h1 h2
    · exact lookupF_updateKey_self hm
    · exact lookupF_updateKey_self hm
    · exact hm

/-- Pointwise characterisation of `merge_fields` (requires `secondary` to have
dict-unique keys). -/
theorem lookupF_merge_fields (p : Fields) (s : Fields) (key : String)
    (hnd : (s.map Prod.fst).Nodup) :
    lookupF (merge_fields p s) key =
      match lookupF s key with
      | Option.none => lookupF p key
      | some sf =>
        some (match lookupF p key with
              | Option.none => sf
              | some pf => combineFC pf sf) := by
  induction s generalizing p with
  | nil => rfl
  | cons kv rest ih =>
    obtain ⟨k, v⟩ := kv
    simp only [List.map_cons, List.nodup_cons] at hnd
    obtain ⟨hk_notmem, hnd_rest⟩ := hnd
    show lookupF (merge_fields (mergeOne p k v) rest) key = _
    rw [ih (mergeOne p k v) hnd_rest]
    by_cases hkey : k = key
    · subst hkey
      rw [lookupF_eq_none_of_not_mem hk_notmem]
      simp only [lookupF, if_pos rfl]
      exact lookupF_mergeOne_self
    · simp only [lookupF, if_neg hkey]
      cases lookupF rest key with
      | none => exact lookupF_mergeOne_ne (fun he => hkey he.symm)
      | some sf => rw [lookupF_mergeOne_ne (fun he => hkey he.symm)]

/-! ### Calendar dates

Python `datetime.date` values: year/month/day triple, ISO rendering `str(d)`,
lexicographic ordering, and `timedelta` day subtraction via a proleptic
Gregorian day number. -/

/-- A Python `datetime.date` (`date(year, month, day)`). -/
structure Date where
  year : Nat
  month : Nat
  day : Nat
deriving DecidableEq

/-- Gregorian leap year. -/
def isLeapYear (y : Nat) : Bool :=
  y % 4 = 0 && (y % 100 ≠ 0 || y % 400 = 0)

/-- Days in a month (used by `datetime`'s constructor validity check). -/
def daysInMonth (y m : Nat) : Nat :=
  if m = 2 then (if isLeapYear y then 29 else 28)
  else if m = 4 ∨ m = 6 ∨ m = 9 ∨ m = 11 then 30
  else 31

/-- Embeds `datetime.date(y, m, d)` constructor validity (raises `ValueError` otherwise). -/
def Date.valid (d : Date) : Bool :=
  1 ≤ d.year && d.year ≤ 9999 && 1 ≤ d.month && d.month ≤ 12
    && 1 ≤ d.day && d.day ≤ daysInMonth d.year d.month

/-- Day number of a civil date (days-from-civil algorithm); differences of two
day numbers equal Python's `(d1 - d2).days`. -/
def Date.toOrdinal (dt : Date) : Int :=
  let y : Int := if dt.month ≤ 2 then (dt.year : Int) - 1 else (dt.year : Int)
  let m : Int := dt.month
  let d : Int := dt.day
  let era : Int := (if y ≥ 0 then y else y - 399) / 400
  let yoe : Int := y - era * 400
  let doy : Int := (153 * (if m > 2 then m - 3 else m + 9) + 2) / 5 + d - 1
  let doe : Int := yoe * 365 + yoe / 4 - yoe / 100 + doy
  era * 146097 + doe

/-- Python date comparison (`date` objects compare by (year, month, day)). -/
def Date.pyLt (a b : Date) : Bool :=
  a.year < b.year
    || (a.year = b.year && (a.month < b.month
        || (a.month = b.month && a.day < b.day)))

/-- Left-pad a number with zeros to the given width. -/
def padZeros (w : Nat) (n : Nat) : String :=
  let s := toString n
  String.mk (List.replicate (w - s.length) '0') ++ s

/-- Embeds `str(date)` / `date.strftime("%Y-%m-%d")`: ISO calendar-date form. -/
def Date.toIso (d : Date) : String :=
  padZeros 4 d.year ++ "-" ++ padZeros 2 d.month ++ "-" ++ padZeros 2 d.day

/-! ### Python string helpers used by the validator and extractor. -/

/-- Truthiness test `not s` for an optional string: `None` and `""` are falsy. -/
def strBlank : Option String → Bool
  | Option.none => true
  | some s => s.isEmpty

/-- Python `a or b` for an optional string `a` and fallback `b`. -/
def pyOrStr (a : Option String) (b : String) : String :=
  match a with
  | Option.none => b
  | some s => if s.isEmpty then b else s

/-- Python `s.replace('_', ' ').title()` for snake_case field names. -/
def pyTitle (s : String) : String :=
  let step := fun (acc : List Char × Bool) (c : Char) =>
    let c := if c = '_' then ' ' else c
    if c.isAlpha then (acc.1 ++ [if acc.2 then c.toLower else c.toUpper], true)
    else (acc.1 ++ [c], false)
  String.mk (s.data.foldl step ([], false)).1

/-- Python `" ".join(s.split())`: collapse whitespace runs. -/
def joinSplit (s : String) : String :=
  String.intercalate " " ((s.split fun c => c.isWhitespace).filter fun t => !t.isEmpty)

/-- Python `s.strip()`: drop whitespace from both ends (structural, unlike
`String.trim`, so that concrete inputs evaluate). -/
def pyStrip (s : String) : String :=
  String.mk (((s.data.dropWhile Char.isWhitespace).reverse.dropWhile
    Char.isWhitespace).reverse)

/-- Round-half-even of a rational (Python's `round` on the underlying value). -/
def roundHalfEven (q : ℚ) : Int :=
  let fl := ⌊q⌋
  let frac := q - fl
  if frac > 1/2 then fl + 1
  else if frac < 1/2 then fl
  else if fl % 2 = 0 then fl else fl + 1

/-- Python `f"{x:.2f}"` on the exact rational value. -/
def fmt2 (q : ℚ) : String :=
  let neg := q < 0
  let n := (roundHalfEven (|q| * 100)).toNat
  let whole := n / 100
  let cents := n % 100
  (if neg then "-" else "") ++ toString whole ++ "." ++ padZeros 2 cents

/-- Python `str(x)` for a float with an exact decimal expansion (used only for
interpolating amounts into messages; values in this codebase are short
decimals). Falls back to `num/den` for non-terminating expansions. -/
def decimalRepr (q : ℚ) : String :=
  let neg := q < 0
  let a := |q|
  let n20 := a * 10 ^ 20
  if n20.den = 1 then
    let digits := n20.num.toNat
    let whole := digits / 10 ^ 20
    let fracDigits := padZeros 20 (digits % 10 ^ 20)
    let trimmed := String.mk (fracDigits.data.reverse.dropWhile (· = '0')).reverse
    let frac := if trimmed.isEmpty then "0" else trimmed
    (if neg then "-" else "") ++ toString whole ++ "." ++ frac
  else
    (if neg then "-" else "") ++ toString a.num.natAbs ++ "/" ++ toString a.den

/-- Python `str(value)` for a scalar. -/
def Val.pyStr : Val → String
  | .none => "None"
  | .str s => s
  | .num q => decimalRepr q

/-! ### Numeric and date parsing (`text_extractor.py` helpers). -/

/-- Value of a list of decimal digit characters. -/
def digitsToNat (cs : List Char) : Nat :=
  cs.foldl (fun a c => a * 10 + (c.toNat - 48)) 0

/-- Python `float(s)` on plain decimal literals: optional sign, digits with an
optional fractional part, optional exponent; anything else raises
(`Option.none`).  (Exotic accepted spellings — `inf`, `nan`, `_` separators —
do not occur in this codebase's inputs and are not modelled.) -/
def parseFloat? (s : String) : Option ℚ :=
  let cs := (pyStrip s).data
  let (neg, cs) :=
    match cs with
    | '+' :: rest => (false, rest)
    | '-' :: rest => (true, rest)
    | _ => (false, cs)
  let ip := cs.takeWhile Char.isDigit
  let cs := cs.dropWhile Char.isDigit
  let (fp, cs) :=
    match cs with
    | '.' :: rest => (rest.takeWhile Char.isDigit, rest.dropWhile Char.isDigit)
    | _ => ([], cs)
  if ip.isEmpty && fp.isEmpty then Option.none
  else
    let mantissa : ℚ := (digitsToNat (ip ++ fp) : ℚ) / 10 ^ fp.length
    let value : ℚ → ℚ := fun q => if neg then -q else q
    match cs with
    | [] => some (value mantissa)
    | c :: rest =>
      if c = 'e' ∨ c = 'E' then
        let (eneg, rest) :=
          match rest with
          | '+' :: r => (false, r)
          | '-' :: r => (true, r)
          | _ => (false, rest)
        let ed := rest.takeWhile Char.isDigit
        let rest := rest.dropWhile Char.isDigit
        if ed.isEmpty ∨ ¬ rest.isEmpty then Option.none
        else
          let e : ℚ := 10 ^ digitsToNat ed
          some (value (if eneg then mantissa / e else mantissa * e))
      else Option.none

/-- Embeds `TextExtractor._parse_amount`: strip `₹`, `R`, `s`, `.`, `,` and whitespace
(the regex `[₹Rs.,\s]`), then `float(...)`; empty input or parse failure
yields `None`. -/
def parse_amount (value : String) : Option ℚ :=
  if value.isEmpty then Option.none
  else
    let cleaned := String.mk (value.data.filter fun c =>
      !(c = '₹' ∨ c = 'R' ∨ c = 's' ∨ c = '.' ∨ c = ',' ∨ c.isWhitespace))
    parseFloat? cleaned

/-- Month-abbreviation table for `%b` (`strptime` matches case-insensitively). -/
def monthAbbrevs : List (Nat × String) :=
  [(1, "jan"), (2, "feb"), (3, "mar"), (4, "apr"), (5, "may"), (6, "jun"),
   (7, "jul"), (8, "aug"), (9, "sep"), (10, "oct"), (11, "nov"), (12, "dec")]

/-- Full month-name table for `%B`. -/
def monthFulls : List (Nat × String) :=
  [(1, "january"), (2, "february"), (3, "march"), (4, "april"), (5, "may"),
   (6, "june"), (7, "july"), (8, "august"), (9, "september"), (10, "october"),
   (11, "november"), (12, "december")]

/-- One token of a `strptime` format string. -/
inductive FTok
  | D
  | M
  | Y
  | Babbr
  | Bfull
  | lit (c : Char)
  | ws

/-- Embeds `ValidationConfig.date_formats`:
`["%d-%b-%Y", "%d/%m/%Y", "%Y-%m-%d", "%d-%m-%Y", "%d %b %Y", "%d %B %Y"]`. -/
def date_formats : List (List FTok) :=
  [[.D, .lit '-', .Babbr, .lit '-', .Y],
   [.D, .lit '/', .M, .lit '/', .Y],
   [.Y, .lit '-', .M, .lit '-', .D],
   [.D, .lit '-', .M, .lit '-', .Y],
   [.D, .ws, .Babbr, .ws, .Y],
   [.D, .ws, .Bfull, .ws, .Y]]

/-- Digit value of a char, if a digit. -/
def digitVal? (c : Char) : Option Nat :=
  if c.isDigit then some (c.toNat - 48) else Option.none

/-- Embeds `strptime` `%d` field: the regex `3[01]|[12]\d|0[1-9]|[1-9]`. -/
def parseDayTok : List Char → Option (Nat × List Char)
  | [] => Option.none
  | c1 :: rest =>
    match digitVal? c1 with
    | Option.none => Option.none
    | some d1 =>
      match rest with
      | c2 :: rest2 =>
        match digitVal? c2 with
        | some d2 =>
          if d1 = 3 then
            if d2 ≤ 1 then some (30 + d2, rest2) else some (3, rest)
          else if d1 = 1 ∨ d1 = 2 then some (d1 * 10 + d2, rest2)
          else if d1 = 0 then
            if d2 ≥ 1 then some (d2, rest2) else Option.none
          else some (d1, rest)
        | Option.none => if d1 ≥ 1 then some (d1, rest) else Option.none
      | [] => if d1 ≥ 1 then some (d1, rest) else Option.none

/-- Embeds `strptime` `%m` field: the regex `1[0-2]|0[1-9]|[1-9]`. -/
def parseMonthTok : List Char → Option (Nat × List Char)
  | [] => Option.none
  | c1 :: rest =>
    match digitVal? c1 with
    | Option.none => Option.none
    | some d1 =>
      match rest with
      | c2 :: rest2 =>
        match digitVal? c2 with
        | some d2 =>
          if d1 = 1 then
            if d2 ≤ 2 then some (10 + d2, rest2) else some (1, rest)
          else if d1 = 0 then
            if d2 ≥ 1 then some (d2, rest2) else Option.none
          else some (d1, rest)
        | Option.none => if d1 ≥ 1 then some (d1, rest) else Option.none
      | [] => if d1 ≥ 1 then some (d1, rest) else Option.none

/-- Embeds `strptime` `%Y` field: exactly four digits. -/
def parseYearTok (cs : List Char) : Option (Nat × List Char) :=
  match cs with
  | a :: b :: c :: d :: rest =>
    match digitVal? a, digitVal? b, digitVal? c, digitVal? d with
    | some x, some y, some z, some w => some (x * 1000 + y * 100 + z * 10 + w, rest)
    | _, _, _, _ => Option.none
  | _ => Option.none

/-- Case-insensitive month-name match from a table (names are pairwise
non-prefixing, so first match is unambiguous). -/
def parseMonthName (table : List (Nat × String)) (cs : List Char) :
    Option (Nat × List Char) :=
  table.firstM fun (m, name) =>
    let n := name.length
    if (cs.take n).map Char.toLower = name.data then some (m, cs.drop n)
    else Option.none

/-- Run a format over the input, accumulating (year, month, day); `strptime`
requires the whole string to be consumed. -/
def runFormat : List FTok → List Char → Nat × Nat × Nat → Option (Nat × Nat × Nat)
  | [], [], acc => some acc
  | [], _ :: _, _ => Option.none
  | tok :: toks, cs, (y, m, d) =>
    match tok with
    | .D => (parseDayTok cs).bind fun (v, rest) => runFormat toks rest (y, m, v)
    | .M => (parseMonthTok cs).bind fun (v, rest) => runFormat toks rest (y, v, d)
    | .Y => (parseYearTok cs).bind fun (v, rest) => runFormat toks rest (v, m, d)
    | .Babbr => (parseMonthName monthAbbrevs cs).bind fun (v, rest) =>
        runFormat toks rest (y, v, d)
    | .Bfull => (parseMonthName monthFulls cs).bind fun (v, rest) =>
        runFormat toks rest (y, v, d)
    | .lit c =>
      match cs with
      | c' :: rest => if c' = c then runFormat toks rest (y, m, d) else Option.none
      | [] => Option.none
    | .ws =>
      match cs with
      | c' :: rest =>
        if c'.isWhitespace then
          runFormat toks (rest.dropWhile Char.isWhitespace) (y, m, d)
        else Option.none
      | [] => Option.none

/-- Embeds `datetime.strptime(value, fmt).date()`: match the format, then the
constructor's validity check. -/
def strptimeDate? (fmt : List FTok) (value : String) : Option Date :=
  match runFormat fmt value.data (1900, 1, 1) with
  | Option.none => Option.none
  | some (y, m, d) =>
    let dt : Date := ⟨y, m, d⟩
    if dt.valid then some dt else Option.none

/-- First date format of `validation_config.date_formats` that parses. -/
def tryDateFormats (value : String) : Option Date :=
  date_formats.firstM fun fmt => strptimeDate? fmt value

/-- Embeds `TextExtractor._parse_date`: try the configured formats in order, render the
first success as ISO `%Y-%m-%d`; `None` when no format parses. -/
def parse_date (value : String) : Option String :=
  if value.isEmpty then Option.none
  else (tryDateFormats value).map Date.toIso

/-! ### SHA-256 (`hashlib.sha256(...).hexdigest()`), over UTF-8 bytes.

Machine 32-bit words are `Nat` reduced `% 2^32`. -/

/-- UTF-8 encoding of one character. -/
def charUtf8 (c : Char) : List Nat :=
  let n := c.toNat
  if n < 0x80 then [n]
  else if n < 0x800 then
    [0xC0 + n / 64, 0x80 + n % 64]
  else if n < 0x10000 then
    [0xE0 + n / 4096, 0x80 + n / 64 % 64, 0x80 + n % 64]
  else
    [0xF0 + n / 262144, 0x80 + n / 4096 % 64, 0x80 + n / 64 % 64, 0x80 + n % 64]

/-- UTF-8 bytes of a string (`s.encode()`). -/
def utf8Bytes (s : String) : List Nat :=
  s.data.flatMap charUtf8

/-- Reduce to a 32-bit word. -/
def mod32 (n : Nat) : Nat := n % 4294967296

/-- Right-rotate a 32-bit word by `n`. -/
def rotr32 (n x : Nat) : Nat :=
  mod32 ((x >>> n) ||| (x <<< (32 - n)))

def sha256BSig0 (x : Nat) : Nat := rotr32 2 x ^^^ rotr32 13 x ^^^ rotr32 22 x

def sha256BSig1 (x : Nat) : Nat := rotr32 6 x ^^^ rotr32 11 x ^^^ rotr32 25 x

def sha256SSig0 (x : Nat) : Nat := rotr32 7 x ^^^ rotr32 18 x ^^^ (x >>> 3)

def sha256SSig1 (x : Nat) : Nat := rotr32 17 x ^^^ rotr32 19 x ^^^ (x >>> 10)

def sha256Ch (x y z : Nat) : Nat := (x &&& y) ^^^ ((x ^^^ 0xffffffff) &&& z)

def sha256Maj (x y z : Nat) : Nat := (x &&& y) ^^^ (x &&& z) ^^^ (y &&& z)

/-- SHA-256 round constants (decimal). -/
def sha256K : List Nat :=
  [1116352408, 1899447441, 3049323471, 3921009573, 961987163,
   1508970993, 2453635748, 2870763221, 3624381080, 310598401,
   607225278, 1426881987, 1925078388, 2162078206, 2614888103,
   3248222580, 3835390401, 4022224774, 264347078, 604807628,
   770255983, 1249150122, 1555081692, 1996064986, 2554220882,
   2821834349, 2952996808, 3210313671, 3336571891, 3584528711,
   113926993, 338241895, 666307205, 773529912, 1294757372,
   1396182291, 1695183700, 1986661051, 2177026350, 2456956037,
   2730485921, 2820302411, 3259730800, 3345764771, 3516065817,
   3600352804, 4094571909, 275423344, 430227734, 506948616,
   659060556, 883997877, 958139571, 1322822218, 1537002063,
   1747873779, 1955562222, 2024104815, 2227730452, 2361852424,
   2428436474, 2756734187, 3204031479, 3329325298]

/-- SHA-256 initial hash state (decimal). -/
def sha256H0 : List Nat :=
  [1779033703, 3144134277, 1013904242, 2773480762,
   1359893119, 2600822924, 528734635, 1541459225]

/-- Big-endian byte rendering of a value, fixed width. -/
def beBytes (width v : Nat) : List Nat :=
  (List.range width).map fun i => v >>> (8 * (width - 1 - i)) % 256

/-- SHA-256 message padding: `0x80`, zeros to 56 mod 64, 8-byte bit length. -/
def sha256pad (msg : List Nat) : List Nat :=
  let len := msg.length
  let k := (119 - len % 64) % 64
  msg ++ [0x80] ++ List.replicate k 0 ++ beBytes 8 (8 * len)

/-- Split a byte list into 64-byte chunks. -/
def chunks64 : List Nat → List (List Nat)
  | [] => []
  | x :: xs => ((x :: xs).take 64) :: chunks64 ((x :: xs).drop 64)
termination_by l => l.length
decreasing_by simp [List.length_drop]; omega

/-- Big-endian 32-bit word from four bytes. -/
def beWord (bs : List Nat) : Nat :=
  bs.foldl (fun a b => a * 256 + b) 0

/-- The sixteen 32-bit words of one 64-byte chunk. -/
def toWords16 : List Nat → List Nat
  | a :: b :: c :: d :: rest => beWord [a, b, c, d] :: toWords16 rest
  | _ => []

/-- Extend 16 schedule words to 64. -/
def sha256Schedule (w16 : List Nat) : Array Nat :=
  (List.range 48).foldl
    (fun w _ =>
      let n := w.size
      w.push (mod32 (sha256SSig1 (w.getD (n - 2) 0) + w.getD (n - 7) 0
        + sha256SSig0 (w.getD (n - 15) 0) + w.getD (n - 16) 0)))
    w16.toArray

/-- One round of the SHA-256 compression function. -/
def sha256Round (st : Nat × Nat × Nat × Nat × Nat × Nat × Nat × Nat)
    (kw : Nat × Nat) : Nat × Nat × Nat × Nat × Nat × Nat × Nat × Nat :=
  let (a, b, c, d, e, f, g, hh) := st
  let (k, w) := kw
  let t1 := mod32 (hh + sha256BSig1 e + sha256Ch e f g + k + w)
  let t2 := mod32 (sha256BSig0 a + sha256Maj a b c)
  (mod32 (t1 + t2), a, b, c, mod32 (d + t1), e, f, g)

/-- Process one 64-byte chunk, updating the 8-word hash state. -/
def sha256Chunk (hs : List Nat) (chunk : List Nat) : List Nat :=
  let w := sha256Schedule (toWords16 chunk)
  let init := (hs.getD 0 0, hs.getD 1 0, hs.getD 2 0, hs.getD 3 0,
               hs.getD 4 0, hs.getD 5 0, hs.getD 6 0, hs.getD 7 0)
  let (a, b, c, d, e, f, g, hh) := (sha256K.zip w.toList).foldl sha256Round init
  [mod32 (hs.getD 0 0 + a), mod32 (hs.getD 1 0 + b), mod32 (hs.getD 2 0 + c),
   mod32 (hs.getD 3 0 + d), mod32 (hs.getD 4 0 + e), mod32 (hs.getD 5 0 + f),
   mod32 (hs.getD 6 0 + g), mod32 (hs.getD 7 0 + hh)]

/-- Lower-case hex digit. -/
def hexDigit (n : Nat) : Char :=
  if n < 10 then Char.ofNat (48 + n) else Char.ofNat (87 + n)

/-- Eight-hex-digit rendering of a 32-bit word. -/
def word32hex (v : Nat) : String :=
  String.mk ((List.range 8).map fun i => hexDigit (v >>> (4 * (7 - i)) % 16))

/-- Embeds `hashlib.sha256(s.encode()).hexdigest()`. -/
def sha256hex (s : String) : String :=
  let final := (chunks64 (sha256pad (utf8Bytes s))).foldl sha256Chunk sha256H0
  String.join (final.map word32hex)

/-! ### Data model (`src/models/challan.py`). -/

/-- Embeds `models.ValidationStatus`. -/
inductive ValidationStatus
  | OK
  | FLAG
  | PENDING
deriving DecidableEq

/-- Embeds `models.ReviewStatus`. -/
inductive ReviewStatus
  | PENDING_REVIEW
  | ACCEPTED
  | REJECTED
  | CORRECTED
deriving DecidableEq

/-- Embeds `models.TaxBreakup`: the six tax components (default 0.0 each). -/
structure TaxBreakup where
  tax_a : ℚ := 0
  tax_b : ℚ := 0
  tax_c : ℚ := 0
  tax_d : ℚ := 0
  tax_e : ℚ := 0
  tax_f : ℚ := 0
deriving DecidableEq

/-- Embeds `TaxBreakup.total`: derived sum of the six components. -/
def TaxBreakup.total (t : TaxBreakup) : ℚ :=
  t.tax_a + t.tax_b + t.tax_c + t.tax_d + t.tax_e + t.tax_f

/-- Embeds `models.ChallanRecord`. -/
structure ChallanRecord where
  tan : Option String := Option.none
  deductor_name : Option String := Option.none
  assessment_year : Option String := Option.none
  financial_year : Option String := Option.none
  major_head : Option String := Option.none
  minor_head : Option String := Option.none
  nature_of_payment : Option String := Option.none
  total_amount : Option ℚ := Option.none
  amount_in_words : Option String := Option.none
  cin : Option String := Option.none
  bsr_code : Option String := Option.none
  challan_no : Option String := Option.none
  date_of_deposit : Option Date := Option.none
  tender_date : Option Date := Option.none
  bank_name : Option String := Option.none
  bank_ref_no : Option String := Option.none
  mode_of_payment : Option String := Option.none
  tax_breakup : TaxBreakup := {}
  source_file : String := ""
  row_confidence : ℚ := 0
  validation_flag : ValidationStatus := .PENDING
  review_status : ReviewStatus := .PENDING_REVIEW
  notes : String := ""
  field_confidences : Fields := []
  record_hash : Option String := Option.none
deriving DecidableEq

/-- The f-string `f"{self.cin or ''}{self.challan_no or ''}{self.date_of_deposit or ''}"`
inside `ChallanRecord.compute_hash`: the three components concatenated with no
delimiter, `None` rendered as the empty string. -/
def hash_input (r : ChallanRecord) : String :=
  (match r.cin with | Option.none => "" | some s => s)
    ++ (match r.challan_no with | Option.none => "" | some s => s)
    ++ (match r.date_of_deposit with | Option.none => "" | some d => d.toIso)

/-- Embeds `ChallanRecord.compute_hash`: first 16 hex characters of the SHA-256 of
`hash_input` (the method also stores this in `record_hash`, modelled at the
call sites). -/
def compute_hash (r : ChallanRecord) : String :=
  (sha256hex (hash_input r)).take 16

/-! ### Validator (`src/validation/validator.py`). -/

/-- Configuration defaults (`config.ValidationConfig`). -/
def sum_check_tolerance : ℚ := 1

def cin_min_length : Nat := 15

/-- Issue messages: each constructor is one f-string template of
`validator.py`, carrying exactly the interpolated values. -/
inductive Message
  | tanMissing
  | tanInvalidFormat (tan : String)
  | cinMissing
  | cinTooShort (cin : String) (minLen : Nat)
  | totalAmountMissing
  | negativeTotalAmount (amount : ℚ)
  | zeroTotalAmount
  | sumMismatch (taxSum totalAmount diff : ℚ)
  | dateOfDepositMissing
  | futureDate (d : Date)
  | oldDate (d : Date)
  | requiredFieldMissing (fieldName : String)
  | duplicateRecord (hashVal : String)
deriving DecidableEq

/-- The rational values interpolated into a message (for "the message includes
value v" statements). -/
def Message.mentionedRats : Message → List ℚ
  | .negativeTotalAmount a => [a]
  | .sumMismatch a b c => [a, b, c]
  | _ => []

/-- Rendering of each message template to its Python string. -/
def Message.render : Message → String
  | .tanMissing => "TAN is missing"
  | .tanInvalidFormat t => "Invalid TAN format: " ++ t
  | .cinMissing => "CIN is missing"
  | .cinTooShort c m => "CIN too short: " ++ c ++ " (min " ++ toString m ++ " chars)"
  | .totalAmountMissing => "Total amount is missing"
  | .negativeTotalAmount a => "Negative total amount: " ++ decimalRepr a
  | .zeroTotalAmount => "Total amount is zero"
  | .sumMismatch a b c =>
      "Tax breakup sum (" ++ fmt2 a ++ ") != Total amount (" ++ fmt2 b
        ++ "), diff=" ++ fmt2 c
  | .dateOfDepositMissing => "Date of deposit is missing"
  | .futureDate d => "Date of deposit is in future: " ++ d.toIso
  | .oldDate d => "Date of deposit is more than 10 years old: " ++ d.toIso
  | .requiredFieldMissing f => pyTitle f ++ " is missing"
  | .duplicateRecord hv => "Duplicate record detected (hash: " ++ hv ++ ")"

/-- Embeds `validation.ValidationIssue`. -/
structure ValidationIssue where
  field : String
  issue_type : String
  message : Message
  severity : String := "error"
deriving DecidableEq

/-- Embeds `validation.ValidationResult` (dict fields as association lists). -/
structure ValidationResult where
  record_id : String
  is_valid : Bool
  issues : List ValidationIssue := []
  original_values : List (String × ℚ) := []
  corrected_values : List (String × ℚ) := []
deriving DecidableEq

/-- Embeds `ValidationResult.has_errors`. -/
def has_errors (result : ValidationResult) : Bool :=
  result.issues.any fun i => i.severity == "error"

/-- Embeds `ValidationResult.has_warnings`. -/
def has_warnings (result : ValidationResult) : Bool :=
  result.issues.any fun i => i.severity == "warning"

/-- ASCII upper-case letter (`[A-Z]`). -/
def isUpperAZ (c : Char) : Bool := 'A' ≤ c && c ≤ 'Z'

/-- Embeds `re.match(r"^[A-Z]{4}[0-9]{5}[A-Z]$", s)`: 4 letters, 5 digits, 1 letter. -/
def tan_pattern_match (s : String) : Bool :=
  let cs := s.data
  cs.length == 10 && (cs.take 4).all isUpperAZ
    && ((cs.drop 4).take 5).all Char.isDigit && (cs.drop 9).all isUpperAZ

/-- Embeds `ChallanValidator._validate_tan`. -/
def validate_tan (r : ChallanRecord) : List ValidationIssue :=
  if strBlank r.tan then
    [{ field := "tan", issue_type := "missing", message := .tanMissing,
       severity := "error" }]
  else
    let t := pyOrStr r.tan ""
    if ¬ tan_pattern_match t then
      [{ field := "tan", issue_type := "format", message := .tanInvalidFormat t,
         severity := "error" }]
    else []

/-- Embeds `ChallanValidator._validate_cin`. -/
def validate_cin (cinMin : Nat) (r : ChallanRecord) : List ValidationIssue :=
  if strBlank r.cin then
    [{ field := "cin", issue_type := "missing", message := .cinMissing,
       severity := "error" }]
  else
    let c := pyOrStr r.cin ""
    if c.length < cinMin then
      [{ field := "cin", issue_type := "format", message := .cinTooShort c cinMin,
         severity := "warning" }]
    else []

/-- Embeds `ChallanValidator._validate_amounts`. -/
def validate_amounts (r : ChallanRecord) : List ValidationIssue :=
  match r.total_amount with
  | Option.none =>
    [{ field := "total_amount", issue_type := "missing",
       message := .totalAmountMissing, severity := "error" }]
  | some t =>
    (if t < 0 then
      [{ field := "total_amount", issue_type := "invalid",
         message := .negativeTotalAmount t, severity := "error" }]
     else [])
    ++ (if t = 0 then
      [{ field := "total_amount", issue_type := "suspicious",
         message := .zeroTotalAmount, severity := "warning" }]
     else [])

/-- Embeds `ChallanValidator._validate_sum_check`. -/
def validate_sum_check (tol : ℚ) (r : ChallanRecord) : List ValidationIssue :=
  match r.total_amount with
  | Option.none => []
  | some total =>
    let tax_sum := r.tax_breakup.total
    let difference := |tax_sum - total|
    if difference > tol then
      [{ field := "tax_breakup", issue_type := "sum_mismatch",
         message := .sumMismatch tax_sum total difference, severity := "error" }]
    else []

/-- Embeds `ChallanValidator._validate_dates` (validation time `today` passed
explicitly). -/
def validate_dates (today : Date) (r : ChallanRecord) : List ValidationIssue :=
  match r.date_of_deposit with
  | Option.none =>
    [{ field := "date_of_deposit", issue_type := "missing",
       message := .dateOfDepositMissing, severity := "error" }]
  | some deposit_date =>
    (if today.pyLt deposit_date then
      [{ field := "date_of_deposit", issue_type := "future_date",
         message := .futureDate deposit_date, severity := "warning" }]
     else [])
    ++ (if today.toOrdinal - deposit_date.toOrdinal > 3650 then
      [{ field := "date_of_deposit", issue_type := "old_date",
         message := .oldDate deposit_date, severity := "warning" }]
     else [])

/-- Embeds `ChallanValidator._validate_required_fields` (iteration order of the
`required` dict literal). -/
def validate_required_fields (r : ChallanRecord) : List ValidationIssue :=
  let check : String → Option String → List ValidationIssue := fun name value =>
    if strBlank value then
      [{ field := name, issue_type := "missing",
         message := Message.requiredFieldMissing name, severity := "warning" }]
    else []
  check "challan_no" r.challan_no ++ check "bsr_code" r.bsr_code
    ++ check "bank_name" r.bank_name ++ check "deductor_name" r.deductor_name

/-- All issues produced by the rule checks that run before `_check_duplicate`,
in the order `validate` runs them. -/
def base_issues (tol : ℚ) (cinMin : Nat) (today : Date) (r : ChallanRecord) :
    List ValidationIssue :=
  validate_tan r ++ validate_cin cinMin r ++ validate_amounts r
    ++ validate_sum_check tol r ++ validate_dates today r
    ++ validate_required_fields r

/-- Embeds `ChallanValidator._check_duplicate`, issue part: one duplicate error iff the
record's hash is already in `_seen_hashes`. -/
def dup_issues (seen : List String) (hv : String) : List ValidationIssue :=
  if seen.contains hv then
    [{ field := "record", issue_type := "duplicate",
       message := .duplicateRecord hv, severity := "error" }]
  else []

/-- Embeds `ChallanValidator._check_duplicate`, state part: insert the hash when new. -/
def dup_update (seen : List String) (hv : String) : List String :=
  if seen.contains hv then seen else seen ++ [hv]

/-- Embeds `ChallanValidator.reset_dedupe_cache`. -/
def reset_dedupe_cache (_seen : List String) : List String := []

/-- The full issue list of one `validate` call. -/
def all_issues (tol : ℚ) (cinMin : Nat) (today : Date) (seen : List String)
    (r : ChallanRecord) : List ValidationIssue :=
  base_issues tol cinMin today r ++ dup_issues seen (compute_hash r)

/-- Embeds `record.notes` after `validate`: `"; ".join(f"{i.field}: {i.message}")`,
written only when at least one issue was emitted. -/
def issueText (i : ValidationIssue) : String :=
  i.field ++ ": " ++ i.message.render

/-- Embeds `ChallanValidator.validate`: runs all checks, sets the record's flag and
notes, threads the dedupe cache.  Returns (result, mutated record, new cache). -/
def validate (tol : ℚ) (cinMin : Nat) (today : Date) (seen : List String)
    (r : ChallanRecord) : ValidationResult × ChallanRecord × List String :=
  let record_id := pyOrStr r.record_hash (pyOrStr r.cin "unknown")
  let hv := compute_hash r
  let issues := all_issues tol cinMin today seen r
  let errs := issues.any fun i => i.severity == "error"
  let flag := if errs then ValidationStatus.FLAG else ValidationStatus.OK
  let notes := if issues.isEmpty then r.notes
    else String.intercalate "; " (issues.map issueText)
  let result : ValidationResult :=
    { record_id := record_id
      is_valid := !errs
      issues := issues
      original_values :=
        match r.total_amount with
        | Option.none => []
        | some total =>
          if |r.tax_breakup.total - total| > tol then
            [("tax_sum", r.tax_breakup.total), ("total_amount", total)]
          else []
      corrected_values := [] }
  let r' := { r with record_hash := some hv, validation_flag := flag, notes := notes }
  (result, r', dup_update seen hv)

/-! ### Text extractor field post-processing (`src/extraction/text_extractor.py`). -/

/-- Embeds `re.search(r"(\d{2,3}[A-Z]?)", value)` in `_clean_value` for
`nature_of_payment`: first position with at least two digits; take up to three
digits and an optional trailing upper-case letter. -/
def natureSearch : List Char → Option String
  | [] => Option.none
  | c :: rest =>
    if c.isDigit && ((rest.head?.map Char.isDigit).getD false) then
      let ds := (c :: rest).takeWhile Char.isDigit
      let dtake := ds.take 3
      let after := (c :: rest).drop dtake.length
      let letter :=
        match after.head? with
        | some u => if isUpperAZ u then [u] else []
        | Option.none => []
      some (String.mk (dtake ++ letter))
    else natureSearch rest

/-- Embeds `TextExtractor._clean_value`: field-specific cleaning of the raw capture. -/
def clean_value (field_name : String) (value : String) : Val :=
  if value.isEmpty then Val.none
  else
    let value := pyStrip value
    if field_name = "total_amount" then
      match parse_amount value with
      | Option.none => Val.none
      | some q => Val.num q
    else if field_name = "date_of_deposit" ∨ field_name = "tender_date" then
      match parse_date value with
      | Option.none => Val.none
      | some s => Val.str s
    else if field_name = "tan" then Val.str (pyStrip value.toUpper)
    else if field_name = "cin" then Val.str (pyStrip value.toUpper)
    else if field_name = "nature_of_payment" then
      Val.str ((natureSearch value.data).getD value)
    else if field_name = "deductor_name" then Val.str (joinSplit value)
    else if field_name = "major_head" ∨ field_name = "minor_head" then
      Val.str (joinSplit value)
    else Val.str value

/-- Embeds `TextExtractor._calculate_field_confidence`.  Note the order of the source:
`cleaned_value is None` returns 0.3 before any field-specific branch runs. -/
def calculate_field_confidence (field_name : String) (_raw_value : String)
    (cleaned_value : Val) : ℚ :=
  if cleaned_value = Val.none then 3/10
  else if field_name = "tan" then
    (if tan_pattern_match cleaned_value.pyStr then 98/100 else 6/10)
  else if field_name = "cin" then
    (if cleaned_value.pyStr.length ≥ cin_min_length then 95/100 else 7/10)
  else if field_name = "total_amount" then
    (match cleaned_value with
     | Val.num q => if q > 0 then 95/100 else 6/10
     | _ => 6/10)
  else if field_name = "date_of_deposit" ∨ field_name = "tender_date" then
    (if cleaned_value.pyTruthy then 95/100 else 5/10)
  else 9/10

/-- The match branch of `TextExtractor._extract_fields`: what gets emitted for a
field whose regex matched with capture group `captured`. -/
def field_from_match (field_name : String) (captured : String) : FieldConfidence :=
  let raw_value := pyStrip captured
  let cleaned_value := clean_value field_name raw_value
  { value := cleaned_value
    confidence := calculate_field_confidence field_name raw_value cleaned_value
    extraction_method := "text_regex"
    raw_text := some raw_value }

/-! ### Extraction pipeline (`src/extraction/pipeline.py`). -/

/-- Embeds `ExtractionPipeline.REQUIRED_FIELDS`. -/
def REQUIRED_FIELDS : List String :=
  ["tan", "cin", "total_amount", "date_of_deposit", "challan_no"]

/-- Embeds `ExtractionPipeline.FIELD_WEIGHTS` (default weight 1.0 elsewhere). -/
def FIELD_WEIGHTS : List (String × ℚ) :=
  [("tan", 3), ("cin", 3), ("total_amount", 3), ("date_of_deposit", 2),
   ("challan_no", 2), ("deductor_name", 3/2), ("nature_of_payment", 3/2),
   ("bsr_code", 1)]

def weightOf (name : String) : ℚ :=
  match FIELD_WEIGHTS.lookup name with
  | some w => w
  | Option.none => 1

/-- Embeds `ExtractionPipeline._calculate_completeness`. -/
def calculate_completeness (fields : Fields) : ℚ :=
  if REQUIRED_FIELDS = [] then 1
  else
    let found := REQUIRED_FIELDS.countP fun f =>
      match lookupF fields f with
      | some fc => decide (fc.value ≠ Val.none)
      | Option.none => false
    (found : ℚ) / REQUIRED_FIELDS.length

/-- Embeds `ExtractionPipeline._calculate_row_confidence`. -/
def calculate_row_confidence (fields : Fields) : ℚ :=
  let total_weight := (fields.map fun kv => weightOf kv.1).sum
  let weighted_sum := (fields.map fun kv => weightOf kv.1 * kv.2.confidence).sum
  if total_weight = 0 then 0 else weighted_sum / total_weight

/-- Embeds `get_value` helper of `_build_record`. -/
def get_value (fields : Fields) (field_name : String) : Val :=
  match lookupF fields field_name with
  | some fc => fc.value
  | Option.none => Val.none

/-- Optional-string view of a stored scalar (string fields of the record; the
embedded extractors only ever store strings or `None` in these fields). -/
def valToOptStr : Val → Option String
  | Val.none => Option.none
  | Val.str s => some s
  | Val.num q => some (decimalRepr q)

/-- Embeds `get_float` helper of `_build_record` (default 0.0): numbers pass through,
strings are cleaned of `,`, the mojibake rupee sign and `Rs.` then parsed,
anything unparseable falls back to the default. -/
def get_float (fields : Fields) (field_name : String) : ℚ :=
  match get_value fields field_name with
  | Val.none => 0
  | Val.num q => q
  | Val.str s =>
    let cleaned := pyStrip (((s.replace "," "").replace "â‚¹" "").replace "Rs." "")
    if cleaned.isEmpty then 0
    else match parseFloat? cleaned with
      | some q => q
      | Option.none => 0

/-- Embeds `datetime.fromisoformat(val).date()` on a padded calendar date. -/
def isoParseDate (s : String) : Option Date :=
  match s.data with
  | [y1, y2, y3, y4, '-', m1, m2, '-', d1, d2] =>
    match digitVal? y1, digitVal? y2, digitVal? y3, digitVal? y4,
        digitVal? m1, digitVal? m2, digitVal? d1, digitVal? d2 with
    | some a, some b, some c, some d, some e, some f, some g, some h =>
      let dt : Date := ⟨a * 1000 + b * 100 + c * 10 + d, e * 10 + f, g * 10 + h⟩
      if dt.valid then some dt else Option.none
    | _, _, _, _, _, _, _, _ => Option.none
  | _ => Option.none

/-- Embeds `parse_date` helper of `_build_record`: configured formats first, then ISO. -/
def build_parse_date (fields : Fields) (field_name : String) : Option Date :=
  match get_value fields field_name with
  | Val.none => Option.none
  | Val.num _ => Option.none
  | Val.str s =>
    match tryDateFormats s with
    | some d => some d
    | Option.none => isoParseDate s

/-- Embeds `ExtractionPipeline._build_record`: assemble the canonical record from the
merged fields and compute its deduplication hash. -/
def build_record (fields : Fields) (source_file : String) : ChallanRecord :=
  let tax_breakup : TaxBreakup :=
    { tax_a := get_float fields "tax_a", tax_b := get_float fields "tax_b"
      tax_c := get_float fields "tax_c", tax_d := get_float fields "tax_d"
      tax_e := get_float fields "tax_e", tax_f := get_float fields "tax_f" }
  let record : ChallanRecord :=
    { tan := valToOptStr (get_value fields "tan")
      deductor_name := valToOptStr (get_value fields "deductor_name")
      assessment_year := valToOptStr (get_value fields "assessment_year")
      financial_year := valToOptStr (get_value fields "financial_year")
      major_head := valToOptStr (get_value fields "major_head")
      minor_head := valToOptStr (get_value fields "minor_head")
      nature_of_payment := valToOptStr (get_value fields "nature_of_payment")
      total_amount := some (get_float fields "total_amount")
      amount_in_words := valToOptStr (get_value fields "amount_in_words")
      cin := valToOptStr (get_value fields "cin")
      bsr_code := valToOptStr (get_value fields "bsr_code")
      challan_no := valToOptStr (get_value fields "challan_no")
      date_of_deposit := build_parse_date fields "date_of_deposit"
      tender_date := build_parse_date fields "tender_date"
      bank_name := valToOptStr (get_value fields "bank_name")
      bank_ref_no := valToOptStr (get_value fields "bank_ref_no")
      mode_of_payment := valToOptStr (get_value fields "mode_of_payment")
      tax_breakup := tax_breakup
      source_file := source_file }
  { record with record_hash := some (compute_hash record) }

/-- Embeds `models.ExtractionResult` (wall-clock `processing_time_ms` omitted). -/
structure ExtractionResult where
  success : Bool
  record : Option ChallanRecord := Option.none
  error_message : Option String := Option.none
  extraction_method : String := "unknown"
  warnings : List String := []
deriving DecidableEq

/-- The observable behaviour of one input document and its extractors: each
strategy either returns its fields or raises; `pipelineFault` models an
exception raised inside `process`'s try-block outside the per-strategy
wrappers (e.g. during record construction). -/
structure PdfBehavior where
  textRes : Except String (Fields × String)
  layoutRes : Except String Fields
  ocrAvailable : Bool
  ocrRes : Except String (Fields × String × ℚ)
  pipelineFault : Option String
  fileName : String

/-- Embeds `ExtractionPipeline._try_text_extraction`: failure degrades to `({}, "")`. -/
def try_text_extraction (b : PdfBehavior) : Fields × String :=
  match b.textRes with
  | .ok v => v
  | .error _ => ([], "")

/-- Embeds `ExtractionPipeline._try_layout_extraction`: failure degrades to `{}`. -/
def try_layout_extraction (b : PdfBehavior) : Fields :=
  match b.layoutRes with
  | .ok v => v
  | .error _ => []

/-- Embeds `ExtractionPipeline._try_ocr_extraction`: failure degrades to `({}, "", 0.0)`. -/
def try_ocr_extraction (b : PdfBehavior) : Fields × String × ℚ :=
  match b.ocrRes with
  | .ok v => v
  | .error _ => ([], "", 0)

/-- The body of `ExtractionPipeline.process`'s try-block (`pipelineFault` — an
exception raised by a step not wrapped in a per-strategy handler — aborts the
body whatever else happened; the remaining steps are pure, so the check is
hoisted to the front without changing the observable result). -/
def processBody (b : PdfBehavior) : Except String ExtractionResult :=
  match b.pipelineFault with
  | some e => .error e
  | Option.none =>
    let (text_fields, _raw_text) := try_text_extraction b
    let layout_fields := try_layout_extraction b
    let merged0 := merge_fields text_fields layout_fields
    let completeness := calculate_completeness merged0
    let (merged, extraction_method, warnings) :=
      if completeness < 7/10 ∧ b.ocrAvailable then
        let (ocr_fields, _ocr_text, _ocr_conf) := try_ocr_extraction b
        (merge_fields merged0 ocr_fields, "text+ocr",
         ["Low text extraction completeness (" ++ fmt2 (completeness * 100)
           ++ "%), used OCR fallback"])
      else (merged0, "text", [])
    let record := build_record merged b.fileName
    let record := { record with
      row_confidence := calculate_row_confidence merged
      field_confidences := merged }
    .ok { success := true, record := some record,
          extraction_method := extraction_method, warnings := warnings }

/-- Embeds `ExtractionPipeline.process`: the catch-all except-branch turns any raised
exception into a `success = false` result with the exception text. -/
def process (b : PdfBehavior) : ExtractionResult :=
  match processBody b with
  | .ok res => res
  | .error e =>
    { success := false, error_message := some e, extraction_method := "failed" }

/-! ### Helper lemmas about the validator's checks. -/

theorem validate_tan_shape (r : ChallanRecord) :
    ∀ i ∈ validate_tan r, i.field = "tan" ∧ i.severity = "error"
      ∧ (i.issue_type = "missing" ∨ i.issue_type = "format") := by
  intro i hi
  unfold validate_tan at hi
  split_ifs at hi <;> simp_all

theorem validate_cin_shape (cinMin : Nat) (r : ChallanRecord) :
    ∀ i ∈ validate_cin cinMin r, i.field = "cin"
      ∧ (i.issue_type = "missing" ∧ i.severity = "error"
        ∨ i.issue_type = "format" ∧ i.severity = "warning") := by
  intro i hi
  unfold validate_cin at hi
  split_ifs at hi <;> simp_all

theorem validate_amounts_shape (r : ChallanRecord) :
    ∀ i ∈ validate_amounts r, i.field = "total_amount" := by
  intro i hi
  unfold validate_amounts at hi
  cases htot : r.total_amount with
  | none => rw [htot] at hi; simp_all
  | some t =>
    rw [htot] at hi
    dsimp only at hi
    rw [List.mem_append] at hi
    rcases hi with hi | hi <;> split_ifs at hi <;> simp_all

theorem validate_sum_check_shape (tol : ℚ) (r : ChallanRecord) :
    ∀ i ∈ validate_sum_check tol r, i.field = "tax_breakup"
      ∧ i.issue_type = "sum_mismatch" ∧ i.severity = "error" := by
  intro i hi
  unfold validate_sum_check at hi
  cases htot : r.total_amount with
  | none => rw [htot] at hi; simp_all
  | some t =>
    rw [htot] at hi
    dsimp only at hi
    split_ifs at hi <;> simp_all

theorem validate_dates_shape (today : Date) (r : ChallanRecord) :
    ∀ i ∈ validate_dates today r, i.field = "date_of_deposit"
      ∧ (i.issue_type = "missing" ∧ i.severity = "error"
        ∨ i.issue_type = "future_date" ∧ i.severity = "warning"
        ∨ i.issue_type = "old_date" ∧ i.severity = "warning") := by
  intro i hi
  unfold validate_dates at hi
  cases hdep : r.date_of_deposit with
  | none => rw [hdep] at hi; simp_all
  | some d =>
    rw [hdep] at hi
    dsimp only at hi
    rw [List.mem_append] at hi
    rcases hi with hi | hi <;> split_ifs at hi <;> simp_all

theorem validate_required_shape (r : ChallanRecord) :
    ∀ i ∈ validate_required_fields r, i.issue_type = "missing"
      ∧ i.severity = "warning"
      ∧ (i.field = "challan_no" ∨ i.field = "bsr_code" ∨ i.field = "bank_name"
        ∨ i.field = "deductor_name") := by
  intro i hi
  unfold validate_required_fields at hi
  dsimp only at hi
  simp only [List.mem_append] at hi
  rcases hi with ((hi | hi) | hi) | hi <;> split_ifs at hi <;> simp_all

theorem dup_issues_shape (seen : List String) (hv : String) :
    ∀ i ∈ dup_issues seen hv, i.field = "record" ∧ i.issue_type = "duplicate"
      ∧ i.severity = "error" := by
  intro i hi
  unfold dup_issues at hi
  split_ifs at hi <;> simp_all

/-- The `countP` of a list is zero when the predicate fails on every member. -/
theorem countP_zero_of_all {l : List ValidationIssue} {p : ValidationIssue → Bool}
    (h : ∀ i ∈ l, p i = false) : l.countP p = 0 :=
  List.countP_eq_zero.mpr (by simpa using h)

/-- No check before `_check_duplicate` emits a `duplicate`-typed issue. -/
theorem base_issues_no_dup (tol : ℚ) (cinMin : Nat) (today : Date)
    (r : ChallanRecord) :
    (base_issues tol cinMin today r).countP
      (fun i => i.issue_type == "duplicate") = 0 := by
  apply countP_zero_of_all
  intro i hi
  unfold base_issues at hi
  simp only [List.mem_append] at hi
  rcases hi with ((((hi | hi) | hi) | hi) | hi) | hi
  · have := (validate_tan_shape r i hi).2.2
    rcases this with h | h <;> simp [h]
  · have := (validate_cin_shape cinMin r i hi).2
    rcases this with ⟨h, _⟩ | ⟨h, _⟩ <;> simp [h]
  · unfold validate_amounts at hi
    cases htot : r.total_amount with
    | none => rw [htot] at hi; simp_all
    | some t =>
      rw [htot] at hi
      dsimp only at hi
      rw [List.mem_append] at hi
      rcases hi with hi | hi <;> split_ifs at hi <;> simp_all
  · have := (validate_sum_check_shape tol r i hi).2.1
    simp [this]
  · have := (validate_dates_shape today r i hi).2
    rcases this with ⟨h, _⟩ | ⟨h, _⟩ | ⟨h, _⟩ <;> simp [h]
  · have := (validate_required_shape r i hi).1
    simp [this]

/-! ### Projection lemmas exposing the structure of `validate`'s output. -/

theorem validate_issues_eq (tol : ℚ) (cinMin : Nat) (today : Date)
    (seen : List String) (r : ChallanRecord) :
    (validate tol cinMin today seen r).1.issues = all_issues tol cinMin today seen r := rfl

theorem validate_flag_eq (tol : ℚ) (cinMin : Nat) (today : Date)
    (seen : List String) (r : ChallanRecord) :
    (validate tol cinMin today seen r).2.1.validation_flag =
      if (all_issues tol cinMin today seen r).any (fun i => i.severity == "error")
      then ValidationStatus.FLAG else ValidationStatus.OK := rfl

theorem validate_notes_eq (tol : ℚ) (cinMin : Nat) (today : Date)
    (seen : List String) (r : ChallanRecord) :
    (validate tol cinMin today seen r).2.1.notes =
      if (all_issues tol cinMin today seen r).isEmpty then r.notes
      else String.intercalate "; "
        ((all_issues tol cinMin today seen r).map issueText) := rfl

theorem validate_seen_eq (tol : ℚ) (cinMin : Nat) (today : Date)
    (seen : List String) (r : ChallanRecord) :
    (validate tol cinMin today seen r).2.2 = dup_update seen (compute_hash r) := rfl

/-- The validator only mutates `record_hash`, `validation_flag` and `notes`;
every field the checks read is untouched. -/
theorem validate_record_fields_eq (tol : ℚ) (cinMin : Nat) (today : Date)
    (seen : List String) (r : ChallanRecord) :
    ((validate tol cinMin today seen r).2.1.tan = r.tan
      ∧ (validate tol cinMin today seen r).2.1.cin = r.cin
      ∧ (validate tol cinMin today seen r).2.1.total_amount = r.total_amount
      ∧ (validate tol cinMin today seen r).2.1.tax_breakup = r.tax_breakup
      ∧ (validate tol cinMin today seen r).2.1.date_of_deposit = r.date_of_deposit
      ∧ (validate tol cinMin today seen r).2.1.challan_no = r.challan_no) :=
  ⟨rfl, rfl, rfl, rfl, rfl, rfl⟩

/-- The checks read none of the three fields `validate` writes, so they behave
identically on the mutated record. -/
theorem base_issues_mutated (tol : ℚ) (cinMin : Nat) (today : Date)
    (seen : List String) (r : ChallanRecord) :
    base_issues tol cinMin today (validate tol cinMin today seen r).2.1
      = base_issues tol cinMin today r := rfl

theorem compute_hash_mutated (tol : ℚ) (cinMin : Nat) (today : Date)
    (seen : List String) (r : ChallanRecord) :
    compute_hash (validate tol cinMin today seen r).2.1 = compute_hash r := rfl

theorem dup_issues_nil (hv : String) : dup_issues [] hv = [] := rfl

theorem dup_update_nil (hv : String) : dup_update [] hv = [hv] := rfl

theorem dup_issues_self_mem (hv : String) :
    dup_issues [hv] hv
      = [⟨"record", "duplicate", .duplicateRecord hv, "error"⟩] := by
  unfold dup_issues
  rw [if_pos]
  simp [List.contains]

/-! ### Concrete fixtures. -/

/-- A record that passes every check (cf. the `sample_record` fixtures of
`tests/test_validation.py`). -/
def cleanRecord : ChallanRecord :=
  { tan := some "ABCD12345E"
    deductor_name := some "Acme Corp"
    total_amount := some 100
    cin := some "ABCDEFGHIJKLMNO"
    bsr_code := some "1234567"
    challan_no := some "12345"
    date_of_deposit := some ⟨2025, 10, 7⟩
    bank_name := some "HDFC Bank"
    tax_breakup := { tax_a := 100 }
    notes := "prior notes" }

/-- The validation date used for the concrete fixtures. -/
def fixtureToday : Date := ⟨2025, 10, 7⟩

/-- Total 10000 with breakup summing to 5000 (the spec's own end-to-end
mismatch scenario). -/
def mismatchRecord : ChallanRecord :=
  { total_amount := some 10000
    tax_breakup := { tax_a := 5000 } }

/-- CIN `"AB"`, challan `"1"`: hash input `"AB1"`. -/
def hashCexA : ChallanRecord := { cin := some "AB", challan_no := some "1" }

/-- CIN `"A"`, challan `"B1"`: hash input also `"AB1"`. -/
def hashCexB : ChallanRecord := { cin := some "A", challan_no := some "B1" }

/-- Number of `duplicate`-typed issues in a list. -/
def dupCount (issues : List ValidationIssue) : Nat :=
  issues.countP fun i => i.issue_type == "duplicate"

/-! ### Claim theorems. -/

/-- C2: for every pair of field maps, `_merge_fields` keeps a field present in
only one map as-is; with the field in both, the strictly-higher-confidence
source wins; on an exact confidence tie the secondary value is taken exactly
when the primary value is empty and the secondary value is non-empty. -/
theorem merge_fields_pointwise_spec (primary secondary : Fields) (f : String)
    (hnd : (secondary.map Prod.fst).Nodup) :
    (lookupF secondary f = Option.none →
      lookupF (merge_fields primary secondary) f = lookupF primary f)
    ∧ (lookupF primary f = Option.none →
      lookupF (merge_fields primary secondary) f = lookupF secondary f)
    ∧ (∀ pf sf, lookupF primary f = some pf → lookupF secondary f = some sf →
      (sf.confidence > pf.confidence →
        lookupF (merge_fields primary secondary) f = some sf)
      ∧ (pf.confidence > sf.confidence →
        lookupF (merge_fields primary secondary) f = some pf)
      ∧ (sf.confidence = pf.confidence →
        lookupF (merge_fields primary secondary) f =
          some (if ¬ pf.value.pyTruthy ∧ sf.value.pyTruthy then sf else pf))) := by
  have hm := lookupF_merge_fields primary secondary f hnd
  refine ⟨?_, ?_, ?_⟩
  · intro hs
    rw [hs] at hm
    exact hm
  · intro hp
    cases hs : lookupF secondary f with
    | none => rw [hs] at hm; rw [hm, hp]
    | some sf => rw [hs, hp] at hm; exact hm
  · intro pf sf hp hs
    rw [hs, hp] at hm
    refine ⟨?_, ?_, ?_⟩
    · intro hgt
      rw [hm]
      simp [combineFC, if_pos hgt]
    · intro hgt
      rw [hm]
      have h1 : ¬ sf.confidence > pf.confidence := not_lt.mpr (le_of_lt hgt)
      have h2 : sf.confidence ≠ pf.confidence := ne_of_lt hgt
      simp [combineFC, h1, h2]
    · intro heq
      rw [hm]
      have h1 : ¬ sf.confidence > pf.confidence := by rw [heq]; exact lt_irrefl _
      simp [combineFC, h1, heq]

/-- Witness for C2: a field present only in the secondary map is adopted
unchanged. -/
theorem merge_fields_pointwise_spec_witness :
    lookupF (merge_fields [("tan", ⟨Val.str "ABCD12345E", 9/10, "text_regex", Option.none⟩)]
        [("cin", ⟨Val.str "XYZ", 85/100, "layout", Option.none⟩)]) "cin"
      = some ⟨Val.str "XYZ", 85/100, "layout", Option.none⟩ :=
  (merge_fields_pointwise_spec
      [("tan", ⟨Val.str "ABCD12345E", 9/10, "text_regex", Option.none⟩)]
      [("cin", ⟨Val.str "XYZ", 85/100, "layout", Option.none⟩)]
      "cin" (by decide)).2.1 (by decide)

/-- C1 (corrected): for a record with a present total, the sum check emits
exactly one error-severity `sum_mismatch` issue iff the absolute difference
between the breakup sum and the total exceeds the tolerance; a difference of
exactly the tolerance emits nothing, tolerance + 0.01 emits exactly one, and
the issue's message carries both sums and the absolute (not signed)
difference. -/
theorem sum_check_spec (tol : ℚ) (r : ChallanRecord) (total : ℚ)
    (h : r.total_amount = some total) :
    ((validate_sum_check tol r).countP
        (fun i => i.issue_type == "sum_mismatch" && i.severity == "error") = 1
      ↔ |r.tax_breakup.total - total| > tol)
    ∧ (|r.tax_breakup.total - total| = tol → validate_sum_check tol r = [])
    ∧ (|r.tax_breakup.total - total| = tol + 1/100 →
      (validate_sum_check tol r).countP
        (fun i => i.issue_type == "sum_mismatch" && i.severity == "error") = 1)
    ∧ (∀ i ∈ validate_sum_check tol r,
      i.message = .sumMismatch r.tax_breakup.total total |r.tax_breakup.total - total|
      ∧ r.tax_breakup.total ∈ i.message.mentionedRats
      ∧ total ∈ i.message.mentionedRats
      ∧ |r.tax_breakup.total - total| ∈ i.message.mentionedRats) := by
  unfold validate_sum_check
  rw [h]
  dsimp only
  by_cases hgt : |r.tax_breakup.total - total| > tol
  · rw [if_pos hgt]
    refine ⟨?_, ?_, ?_, ?_⟩
    · simp [List.countP, List.countP.go, hgt]
    · intro he; rw [he] at hgt; exact absurd hgt (lt_irrefl tol)
    · intro _; simp [List.countP, List.countP.go]
    · intro i hi
      rw [List.mem_singleton] at hi
      subst hi
      simp [Message.mentionedRats]
  · rw [if_neg hgt]
    refine ⟨?_, ?_, ?_, ?_⟩
    · simp only [List.countP_nil]
      constructor
      · intro h0; exact absurd h0 (by norm_num)
      · intro hc; exact absurd hc hgt
    · intro _; rfl
    · intro he
      exfalso
      apply hgt
      rw [he]
      linarith
    · intro i hi; exact absurd hi (by simp)

/-- Counterexample for C1 as stated: at breakup sum 5000 and total 10000 the
emitted message carries the absolute difference 5000, not the signed
difference −5000. -/
theorem sum_check_signed_diff_cex :
    (validate_sum_check sum_check_tolerance mismatchRecord).length = 1
    ∧ ∀ i ∈ validate_sum_check sum_check_tolerance mismatchRecord,
        ((5000 : ℚ) - 10000) ∉ i.message.mentionedRats := by
  have hts : mismatchRecord.tax_breakup.total = 5000 := by
    norm_num [mismatchRecord, TaxBreakup.total]
  have hlist : validate_sum_check sum_check_tolerance mismatchRecord
      = [⟨"tax_breakup", "sum_mismatch", .sumMismatch 5000 10000 5000, "error"⟩] := by
    have htot : mismatchRecord.total_amount = some 10000 := rfl
    unfold validate_sum_check
    rw [htot]
    dsimp only
    rw [hts]
    have habs : |(5000 : ℚ) - 10000| = 5000 := by norm_num
    rw [habs, if_pos (by norm_num [sum_check_tolerance])]
  rw [hlist]
  refine ⟨rfl, ?_⟩
  intro i hi
  rw [List.mem_singleton] at hi
  subst hi
  simp only [Message.mentionedRats, List.mem_cons, List.not_mem_nil]
  norm_num

/-- Witness for C1's theorem at the mismatch fixture. -/
theorem sum_check_spec_witness :
    (validate_sum_check 1 mismatchRecord).countP
      (fun i => i.issue_type == "sum_mismatch" && i.severity == "error") = 1 :=
  (sum_check_spec 1 mismatchRecord 10000 rfl).1.mpr (by norm_num [mismatchRecord, TaxBreakup.total])

/-- The record `cleanRecord` raises no issue whatsoever under the default configuration. -/
theorem cleanRecord_all_issues :
    all_issues sum_check_tolerance cin_min_length fixtureToday [] cleanRecord = [] := by
  have h1 : validate_tan cleanRecord = [] := by decide
  have h2 : validate_cin cin_min_length cleanRecord = [] := by decide
  have h3 : validate_amounts cleanRecord = [] := by decide
  have h4 : validate_sum_check sum_check_tolerance cleanRecord = [] := by
    have hts : cleanRecord.tax_breakup.total = 100 := by
      norm_num [cleanRecord, TaxBreakup.total]
    have htot : cleanRecord.total_amount = some 100 := rfl
    unfold validate_sum_check
    rw [htot]
    dsimp only
    rw [hts]
    have habs : |(100 : ℚ) - 100| = 0 := by norm_num
    rw [habs, if_neg (by norm_num [sum_check_tolerance])]
  have h5 : validate_dates fixtureToday cleanRecord = [] := by decide
  have h6 : validate_required_fields cleanRecord = [] := by decide
  unfold all_issues base_issues
  rw [dup_issues_nil, h1, h2, h3, h4, h5, h6]
  rfl

/-- The checks of `cleanRecord` alone (without the duplicate check) are empty. -/
theorem cleanRecord_base_issues :
    base_issues sum_check_tolerance cin_min_length fixtureToday cleanRecord = [] := by
  have h := cleanRecord_all_issues
  unfold all_issues at h
  rwa [dup_issues_nil, List.append_nil] at h

/-- C3: `validate` always leaves the record flagged `OK` or `FLAG` (never
`PENDING`); it is `FLAG` exactly when some emitted issue has severity
`error`, and `OK` exactly when none does — warnings alone never flag. -/
theorem validate_flag_spec (tol : ℚ) (cinMin : Nat) (today : Date)
    (seen : List String) (r : ChallanRecord) :
    ((validate tol cinMin today seen r).2.1.validation_flag = .OK
      ∨ (validate tol cinMin today seen r).2.1.validation_flag = .FLAG)
    ∧ ((validate tol cinMin today seen r).2.1.validation_flag = .FLAG
      ↔ ∃ i ∈ (validate tol cinMin today seen r).1.issues, i.severity = "error")
    ∧ ((validate tol cinMin today seen r).2.1.validation_flag = .OK
      ↔ ∀ i ∈ (validate tol cinMin today seen r).1.issues, i.severity ≠ "error") := by
  rw [validate_flag_eq, validate_issues_eq]
  by_cases he : (all_issues tol cinMin today seen r).any (fun i => i.severity == "error") = true
  · rw [if_pos he]
    rw [List.any_eq_true] at he
    obtain ⟨i, hi, hsev⟩ := he
    rw [beq_iff_eq] at hsev
    refine ⟨Or.inr rfl, ⟨fun _ => ⟨i, hi, hsev⟩, fun _ => rfl⟩,
      ⟨fun hOK => absurd hOK (by decide), fun hall => absurd hsev (hall i hi)⟩⟩
  · rw [if_neg he]
    rw [Bool.not_eq_true, List.any_eq_false] at he
    have he' : ∀ i ∈ all_issues tol cinMin today seen r, i.severity ≠ "error" := by
      intro i hi
      have := he i hi
      simpa [beq_iff_eq] using this
    refine ⟨Or.inl rfl, ⟨fun hF => absurd hF (by decide), ?_⟩,
      ⟨fun _ => he', fun _ => rfl⟩⟩
    rintro ⟨i, hi, hsev⟩
    exact absurd hsev (he' i hi)

/-- C9 (corrected): when at least one issue is emitted, the record's notes are
overwritten with the issues joined as `field: message` pairs by `"; "`; with
zero issues the prior notes are left untouched. -/
theorem notes_spec (tol : ℚ) (cinMin : Nat) (today : Date) (seen : List String)
    (r : ChallanRecord) :
    ((validate tol cinMin today seen r).1.issues ≠ [] →
      (validate tol cinMin today seen r).2.1.notes
        = String.intercalate "; "
            (((validate tol cinMin today seen r).1.issues).map issueText))
    ∧ ((validate tol cinMin today seen r).1.issues = [] →
      (validate tol cinMin today seen r).2.1.notes = r.notes) := by
  rw [validate_notes_eq, validate_issues_eq]
  constructor
  · intro hne
    rw [if_neg]
    simpa using hne
  · intro he
    rw [if_pos]
    simp [he]

/-- Counterexample for C9 as stated: a record that validates with zero issues
keeps its prior notes; they are not overwritten with the empty join. -/
theorem notes_zero_issues_cex :
    (validate sum_check_tolerance cin_min_length fixtureToday [] cleanRecord).1.issues = []
    ∧ (validate sum_check_tolerance cin_min_length fixtureToday [] cleanRecord).2.1.notes
        = "prior notes"
    ∧ ("prior notes" : String)
        ≠ String.intercalate "; " (List.map issueText []) := by
  have hall := cleanRecord_all_issues
  refine ⟨by rw [validate_issues_eq, hall], ?_, by decide⟩
  rw [validate_notes_eq, hall]
  rfl

/-- Witness for C9's theorem: at `cleanRecord` the zero-issue branch applies. -/
theorem notes_spec_witness :
    (validate sum_check_tolerance cin_min_length fixtureToday [] cleanRecord).2.1.notes
      = cleanRecord.notes :=
  (notes_spec sum_check_tolerance cin_min_length fixtureToday [] cleanRecord).2
    (by rw [validate_issues_eq, cleanRecord_all_issues])

/-- Validating from an empty cache never emits a duplicate; validating a record
whose hash equals a just-seen one emits exactly one. -/
theorem second_validation_dup_count (tol : ℚ) (cinMin : Nat) (today : Date)
    (r1 r2 : ChallanRecord) (hh : compute_hash r2 = compute_hash r1) :
    dupCount (validate tol cinMin today [] r1).1.issues = 0
    ∧ dupCount (validate tol cinMin today
        (validate tol cinMin today [] r1).2.2 r2).1.issues = 1 := by
  constructor
  · rw [validate_issues_eq]
    unfold all_issues dupCount
    rw [dup_issues_nil, List.append_nil]
    exact base_issues_no_dup tol cinMin today r1
  · rw [validate_issues_eq, validate_seen_eq, dup_update_nil]
    unfold all_issues dupCount
    rw [hh, dup_issues_self_mem, List.countP_append,
      base_issues_no_dup tol cinMin today r2]
    rfl

/-- C4: within one validator scope, the first validation of a
(CIN, challan, deposit-date) triple emits zero duplicate issues, the second
emits exactly one, and after `reset_dedupe_cache` a further validation of the
same triple again emits zero. -/
theorem duplicate_check_spec (tol : ℚ) (cinMin : Nat) (today : Date)
    (r1 r2 r3 : ChallanRecord)
    (h2c : r2.cin = r1.cin) (h2n : r2.challan_no = r1.challan_no)
    (h2d : r2.date_of_deposit = r1.date_of_deposit)
    (_h3c : r3.cin = r1.cin) (_h3n : r3.challan_no = r1.challan_no)
    (_h3d : r3.date_of_deposit = r1.date_of_deposit) :
    dupCount (validate tol cinMin today [] r1).1.issues = 0
    ∧ dupCount (validate tol cinMin today
        (validate tol cinMin today [] r1).2.2 r2).1.issues = 1
    ∧ dupCount (validate tol cinMin today
        (reset_dedupe_cache (validate tol cinMin today
          (validate tol cinMin today [] r1).2.2 r2).2.2) r3).1.issues = 0 := by
  have hh : compute_hash r2 = compute_hash r1 := by
    unfold compute_hash hash_input
    rw [h2c, h2n, h2d]
  obtain ⟨ha, hb⟩ := second_validation_dup_count tol cinMin today r1 r2 hh
  exact ⟨ha, hb, (second_validation_dup_count tol cinMin today r3 r3 rfl).1⟩

/-- Witness for C4 at the clean fixture: the second validation of the same
triple yields exactly one duplicate issue. -/
theorem duplicate_check_spec_witness :
    dupCount (validate sum_check_tolerance cin_min_length fixtureToday
      (validate sum_check_tolerance cin_min_length fixtureToday [] cleanRecord).2.2
      cleanRecord).1.issues = 1 :=
  (duplicate_check_spec sum_check_tolerance cin_min_length fixtureToday
    cleanRecord cleanRecord cleanRecord rfl rfl rfl rfl rfl rfl).2.1

/-- C10: `compute_hash` is the 16-hex-character truncation of the SHA-256 of
the undelimited concatenation `cin + challan_no + date_of_deposit` (with `None`
as `""`); the distinct triples (`"AB"`, `"1"`, None) and (`"A"`, `"B1"`, None)
therefore collide, and the second such record validated in one scope is
flagged as a duplicate. -/
theorem compute_hash_collision_spec :
    (∀ r : ChallanRecord, compute_hash r = (sha256hex (hash_input r)).take 16)
    ∧ (∀ r : ChallanRecord, hash_input r
        = (match r.cin with | Option.none => "" | some s => s)
          ++ (match r.challan_no with | Option.none => "" | some s => s)
          ++ (match r.date_of_deposit with | Option.none => "" | some d => d.toIso))
    ∧ (hashCexA.cin, hashCexA.challan_no, hashCexA.date_of_deposit)
        ≠ (hashCexB.cin, hashCexB.challan_no, hashCexB.date_of_deposit)
    ∧ compute_hash hashCexA = compute_hash hashCexB
    ∧ dupCount (validate sum_check_tolerance cin_min_length fixtureToday
        (validate sum_check_tolerance cin_min_length fixtureToday [] hashCexA).2.2
        hashCexB).1.issues = 1 := by
  have hin : hash_input hashCexB = hash_input hashCexA := by decide
  have hh : compute_hash hashCexB = compute_hash hashCexA := by
    unfold compute_hash
    rw [hin]
  exact ⟨fun r => rfl, fun r => rfl, by decide, hh.symm,
    (second_validation_dup_count sum_check_tolerance cin_min_length fixtureToday
      hashCexA hashCexB hh).2⟩

/-- C5 (corrected): a record an empty-cache validation flags `OK` is flagged
`OK` again — with no error-severity issues — when re-validated in a fresh
dedupe scope (a new validator instance or one whose cache was reset). -/
theorem revalidate_fresh_scope_spec (tol : ℚ) (cinMin : Nat) (today : Date)
    (r : ChallanRecord)
    (h : (validate tol cinMin today [] r).2.1.validation_flag = .OK) :
    (validate tol cinMin today []
      (validate tol cinMin today [] r).2.1).2.1.validation_flag = .OK
    ∧ ∀ i ∈ (validate tol cinMin today []
        (validate tol cinMin today [] r).2.1).1.issues, i.severity ≠ "error" := by
  have hiss1 : all_issues tol cinMin today [] r = base_issues tol cinMin today r := by
    unfold all_issues
    rw [dup_issues_nil, List.append_nil]
  have hflag := validate_flag_eq tol cinMin today [] r
  rw [hiss1] at hflag
  rw [hflag] at h
  have hany : (base_issues tol cinMin today r).any (fun i => i.severity == "error")
      = false := by
    by_contra hb
    rw [Bool.not_eq_false] at hb
    rw [if_pos hb] at h
    exact absurd h (by decide)
  have hiss2 : all_issues tol cinMin today [] (validate tol cinMin today [] r).2.1
      = base_issues tol cinMin today r := by
    unfold all_issues
    rw [dup_issues_nil, List.append_nil, base_issues_mutated]
  constructor
  · rw [validate_flag_eq, hiss2, hany]
    rfl
  · rw [validate_issues_eq, hiss2]
    rw [List.any_eq_false] at hany
    intro i hi
    have := hany i hi
    simpa [beq_iff_eq] using this

/-- Counterexample for C5 as stated: within the same validator scope (no
reset) the second validation of the very record just flagged `OK` is flagged
`FLAG` by the duplicate check. -/
theorem revalidate_same_scope_cex :
    (validate sum_check_tolerance cin_min_length fixtureToday []
      cleanRecord).2.1.validation_flag = .OK
    ∧ (validate sum_check_tolerance cin_min_length fixtureToday
        (validate sum_check_tolerance cin_min_length fixtureToday [] cleanRecord).2.2
        (validate sum_check_tolerance cin_min_length fixtureToday []
          cleanRecord).2.1).2.1.validation_flag = .FLAG := by
  constructor
  · rw [validate_flag_eq, cleanRecord_all_issues]
    rfl
  · rw [validate_flag_eq, validate_seen_eq, dup_update_nil]
    have hiss : all_issues sum_check_tolerance cin_min_length fixtureToday
        [compute_hash cleanRecord]
        (validate sum_check_tolerance cin_min_length fixtureToday [] cleanRecord).2.1
        = [⟨"record", "duplicate",
            .duplicateRecord (compute_hash cleanRecord), "error"⟩] := by
      unfold all_issues
      rw [base_issues_mutated, cleanRecord_base_issues, compute_hash_mutated,
        dup_issues_self_mem]
      rfl
    rw [hiss]
    rfl

/-- Witness for C5's theorem at the clean fixture. -/
theorem revalidate_fresh_scope_spec_witness :
    (validate sum_check_tolerance cin_min_length fixtureToday []
      (validate sum_check_tolerance cin_min_length fixtureToday []
        cleanRecord).2.1).2.1.validation_flag = .OK :=
  (revalidate_fresh_scope_spec sum_check_tolerance cin_min_length fixtureToday
    cleanRecord
    (by rw [validate_flag_eq, cleanRecord_all_issues]; rfl)).1

theorem validate_amounts_zero (r : ChallanRecord) (h : r.total_amount = some 0) :
    validate_amounts r
      = [⟨"total_amount", "suspicious", .zeroTotalAmount, "warning"⟩] := by
  unfold validate_amounts
  rw [h]
  dsimp only
  rw [if_neg (by norm_num), if_pos rfl]
  simp

theorem validate_amounts_neg (r : ChallanRecord) (t : ℚ) (h : r.total_amount = some t)
    (ht : t < 0) :
    validate_amounts r
      = [⟨"total_amount", "invalid", .negativeTotalAmount t, "error"⟩] := by
  unfold validate_amounts
  rw [h]
  dsimp only
  rw [if_pos ht, if_neg (ne_of_lt ht)]
  simp

theorem validate_amounts_missing (r : ChallanRecord) (h : r.total_amount = Option.none) :
    validate_amounts r
      = [⟨"total_amount", "missing", .totalAmountMissing, "error"⟩] := by
  unfold validate_amounts
  rw [h]

/-- Every check other than `_validate_amounts` emits issues whose field is not
`total_amount` and whose type is not `suspicious`; such a predicate therefore
counts zero over all of them. -/
theorem nonamount_countP_zero (tol : ℚ) (cinMin : Nat) (today : Date)
    (seen : List String) (r : ChallanRecord) (p : ValidationIssue → Bool)
    (hp : ∀ i, i.field ≠ "total_amount" → i.issue_type ≠ "suspicious" → p i = false) :
    (validate_tan r).countP p = 0 ∧ (validate_cin cinMin r).countP p = 0
    ∧ (validate_sum_check tol r).countP p = 0
    ∧ (validate_dates today r).countP p = 0
    ∧ (validate_required_fields r).countP p = 0
    ∧ (dup_issues seen (compute_hash r)).countP p = 0 := by
  refine ⟨countP_zero_of_all fun i hi => ?_, countP_zero_of_all fun i hi => ?_,
    countP_zero_of_all fun i hi => ?_, countP_zero_of_all fun i hi => ?_,
    countP_zero_of_all fun i hi => ?_, countP_zero_of_all fun i hi => ?_⟩
  · obtain ⟨hf, _, ht⟩ := validate_tan_shape r i hi
    exact hp i (by rw [hf]; decide) (by rcases ht with h | h <;> rw [h] <;> decide)
  · obtain ⟨hf, ht⟩ := validate_cin_shape cinMin r i hi
    exact hp i (by rw [hf]; decide)
      (by rcases ht with ⟨h, _⟩ | ⟨h, _⟩ <;> rw [h] <;> decide)
  · obtain ⟨hf, ht, _⟩ := validate_sum_check_shape tol r i hi
    exact hp i (by rw [hf]; decide) (by rw [ht]; decide)
  · obtain ⟨hf, ht⟩ := validate_dates_shape today r i hi
    exact hp i (by rw [hf]; decide)
      (by rcases ht with ⟨h, _⟩ | ⟨h, _⟩ | ⟨h, _⟩ <;> rw [h] <;> decide)
  · obtain ⟨ht, _, hf⟩ := validate_required_shape r i hi
    exact hp i (by rcases hf with h | h | h | h <;> rw [h] <;> decide)
      (by rw [ht]; decide)
  · obtain ⟨hf, ht, _⟩ := dup_issues_shape seen (compute_hash r) i hi
    exact hp i (by rw [hf]; decide) (by rw [ht]; decide)

/-- C7: with every non-amount check error-free — a zero total yields exactly
one `suspicious` warning and the flag stays `OK`; a negative total yields an
error-severity amount issue and the flag becomes `FLAG`; an absent total
yields exactly one error-severity `missing` issue on `total_amount`. -/
theorem amount_boundary_spec (tol : ℚ) (cinMin : Nat) (today : Date)
    (seen : List String) (r : ChallanRecord)
    (hother : ∀ i ∈ validate_tan r ++ validate_cin cinMin r
        ++ validate_sum_check tol r ++ validate_dates today r
        ++ validate_required_fields r ++ dup_issues seen (compute_hash r),
      i.severity ≠ "error") :
    (r.total_amount = some 0 →
      ((validate tol cinMin today seen r).1.issues.countP
          (fun i => i.issue_type == "suspicious" && i.severity == "warning") = 1)
      ∧ (validate tol cinMin today seen r).2.1.validation_flag = .OK)
    ∧ (∀ t : ℚ, r.total_amount = some t → t < 0 →
      (∃ i ∈ (validate tol cinMin today seen r).1.issues,
        i.field = "total_amount" ∧ i.severity = "error")
      ∧ (validate tol cinMin today seen r).2.1.validation_flag = .FLAG)
    ∧ (r.total_amount = Option.none →
      (validate tol cinMin today seen r).1.issues.countP
        (fun i => i.field == "total_amount" && i.issue_type == "missing"
          && i.severity == "error") = 1) := by
  have hdecomp : all_issues tol cinMin today seen r
      = validate_tan r ++ validate_cin cinMin r ++ validate_amounts r
        ++ validate_sum_check tol r ++ validate_dates today r
        ++ validate_required_fields r ++ dup_issues seen (compute_hash r) := rfl
  refine ⟨?_, ?_, ?_⟩
  · intro h0
    have hamt := validate_amounts_zero r h0
    constructor
    · rw [validate_issues_eq, hdecomp, hamt]
      obtain ⟨z1, z2, z3, z4, z5, z6⟩ := nonamount_countP_zero tol cinMin today seen r
        (fun i => i.issue_type == "suspicious" && i.severity == "warning")
        (fun i _ ht => by
          have : (i.issue_type == "suspicious") = false := beq_eq_false_iff_ne.mpr ht
          simp [this])
      simp only [List.countP_append, z1, z2, z3, z4, z5, z6]
      rfl
    · rw [validate_flag_eq]
      have hfalse : (all_issues tol cinMin today seen r).any
          (fun i => i.severity == "error") = false := by
        rw [List.any_eq_false]
        intro i hi
        rw [hdecomp] at hi
        simp only [List.mem_append] at hi
        rcases hi with ((((((hi | hi) | hi) | hi) | hi) | hi) | hi)
        · simpa [beq_iff_eq] using hother i (by simp only [List.mem_append]; tauto)
        · simpa [beq_iff_eq] using hother i (by simp only [List.mem_append]; tauto)
        · rw [hamt, List.mem_singleton] at hi
          subst hi
          decide
        · simpa [beq_iff_eq] using hother i (by simp only [List.mem_append]; tauto)
        · simpa [beq_iff_eq] using hother i (by simp only [List.mem_append]; tauto)
        · simpa [beq_iff_eq] using hother i (by simp only [List.mem_append]; tauto)
        · simpa [beq_iff_eq] using hother i (by simp only [List.mem_append]; tauto)
      rw [hfalse]
      rfl
  · intro t ht htneg
    have hamt := validate_amounts_neg r t ht htneg
    have hmem : (⟨"total_amount", "invalid", .negativeTotalAmount t, "error"⟩
        : ValidationIssue) ∈ (validate tol cinMin today seen r).1.issues := by
      rw [validate_issues_eq, hdecomp, hamt]
      simp only [List.mem_append, List.mem_singleton]
      tauto
    refine ⟨⟨_, hmem, rfl, rfl⟩, ?_⟩
    rw [validate_flag_eq]
    have htrue : (all_issues tol cinMin today seen r).any
        (fun i => i.severity == "error") = true := by
      refine List.any_eq_true.mpr
        ⟨⟨"total_amount", "invalid", .negativeTotalAmount t, "error"⟩, ?_, by rfl⟩
      rw [← validate_issues_eq tol cinMin today seen r]
      exact hmem
    rw [htrue]
    rfl
  · intro hnone
    have hamt := validate_amounts_missing r hnone
    rw [validate_issues_eq, hdecomp, hamt]
    obtain ⟨z1, z2, z3, z4, z5, z6⟩ := nonamount_countP_zero tol cinMin today seen r
      (fun i => i.field == "total_amount" && i.issue_type == "missing"
        && i.severity == "error")
      (fun i hf _ => by
        have : (i.field == "total_amount") = false := beq_eq_false_iff_ne.mpr hf
        simp [this])
    simp only [List.countP_append, z1, z2, z3, z4, z5, z6]
    rfl

/-- A record like the clean fixture but with a zero total and zero breakup. -/
def zeroAmountRecord : ChallanRecord :=
  { cleanRecord with total_amount := some 0, tax_breakup := {} }

/-- Witness for C7 at a concrete zero-amount record. -/
theorem amount_boundary_spec_witness :
    (validate sum_check_tolerance cin_min_length fixtureToday []
        zeroAmountRecord).1.issues.countP
      (fun i => i.issue_type == "suspicious" && i.severity == "warning") = 1 :=
  ((amount_boundary_spec sum_check_tolerance cin_min_length fixtureToday []
    zeroAmountRecord (by
      have e1 : validate_tan zeroAmountRecord = [] := by decide
      have e2 : validate_cin cin_min_length zeroAmountRecord = [] := by decide
      have e3 : validate_sum_check sum_check_tolerance zeroAmountRecord = [] := by
        have hts : zeroAmountRecord.tax_breakup.total = 0 := by
          norm_num [zeroAmountRecord, cleanRecord, TaxBreakup.total]
        have htot : zeroAmountRecord.total_amount = some 0 := rfl
        unfold validate_sum_check
        rw [htot]
        dsimp only
        rw [hts]
        have habs : |(0 : ℚ) - 0| = 0 := by norm_num
        rw [habs, if_neg (by norm_num [sum_check_tolerance])]
      have e4 : validate_dates fixtureToday zeroAmountRecord = [] := by decide
      have e5 : validate_required_fields zeroAmountRecord = [] := by decide
      have e6 : dup_issues [] (compute_hash zeroAmountRecord) = [] :=
        dup_issues_nil _
      intro i hi
      rw [e1, e2, e3, e4, e5, e6] at hi
      simp at hi)).1 rfl).1

/-- C6: `process` is total over every document behaviour: extractor failures
degrade to empty contributions, an exception in the unwrapped region surfaces
as `success = false` with the exception text, and a success carries a record
and one of the two extraction methods. -/
theorem process_error_handling_spec (b : PdfBehavior) :
    ((process b).success = false →
      (process b).error_message.isSome ∧ (process b).record = Option.none
        ∧ (process b).extraction_method = "failed")
    ∧ ((process b).success = true →
      (process b).record.isSome
        ∧ ((process b).extraction_method = "text"
          ∨ (process b).extraction_method = "text+ocr"))
    ∧ (∀ e, b.textRes = .error e → try_text_extraction b = ([], ""))
    ∧ (∀ e, b.layoutRes = .error e → try_layout_extraction b = [])
    ∧ (∀ e, b.ocrRes = .error e → try_ocr_extraction b = ([], "", 0))
    ∧ (∀ e, b.pipelineFault = some e →
      process b = { success := false, record := Option.none,
                    error_message := some e, extraction_method := "failed",
                    warnings := [] })
    ∧ (b.pipelineFault = Option.none → (process b).success = true) := by
  have hbody : ∀ e, b.pipelineFault = some e → processBody b = .error e := by
    intro e he
    unfold processBody
    rw [he]
  have hok : b.pipelineFault = Option.none →
      (process b).success = true
      ∧ (process b).record.isSome
      ∧ ((process b).extraction_method = "text"
        ∨ (process b).extraction_method = "text+ocr") := by
    intro he
    unfold process processBody
    rw [he]
    dsimp only
    by_cases hc : calculate_completeness
        (merge_fields (try_text_extraction b).1 (try_layout_extraction b)) < 7/10
        ∧ b.ocrAvailable
    · rw [if_pos hc]
      exact ⟨rfl, rfl, Or.inr rfl⟩
    · rw [if_neg hc]
      exact ⟨rfl, rfl, Or.inl rfl⟩
  refine ⟨?_, ?_, ?_, ?_, ?_, ?_, fun he => (hok he).1⟩
  · intro hfail
    cases he : b.pipelineFault with
    | none =>
      rw [(hok he).1] at hfail
      exact absurd hfail (by decide)
    | some e =>
      have : process b = { success := false, record := Option.none,
                           error_message := some e, extraction_method := "failed",
                           warnings := [] } := by
        unfold process
        rw [hbody e he]
      rw [this]
      exact ⟨rfl, rfl, rfl⟩
  · intro hsucc
    cases he : b.pipelineFault with
    | none => exact (hok he).2
    | some e =>
      have : process b = { success := false, record := Option.none,
                           error_message := some e, extraction_method := "failed",
                           warnings := [] } := by
        unfold process
        rw [hbody e he]
      rw [this] at hsucc
      simp at hsucc
  · intro e he
    unfold try_text_extraction
    rw [he]
  · intro e he
    unfold try_layout_extraction
    rw [he]
  · intro e he
    unfold try_ocr_extraction
    rw [he]
  · intro e he
    unfold process
    rw [hbody e he]

/-- A document whose every extractor raises and whose record construction also
raises. -/
def faultyPdf : PdfBehavior :=
  { textRes := .error "text boom", layoutRes := .error "layout boom"
    ocrAvailable := false, ocrRes := .error "ocr boom"
    pipelineFault := some "crash", fileName := "f.pdf" }

/-- Witness for C6 at `faultyPdf`: the text strategy degrades to an empty map
and the pipeline fault surfaces as a failure result. -/
theorem process_error_handling_spec_witness :
    try_text_extraction faultyPdf = ([], "")
    ∧ process faultyPdf = { success := false, record := Option.none,
                            error_message := some "crash", extraction_method := "failed",
                            warnings := [] } := by
  obtain ⟨_, _, h3, _, _, h6, _⟩ := process_error_handling_spec faultyPdf
  exact ⟨h3 "text boom" rfl, h6 "crash" rfl⟩

/-- C8 (corrected): a total-amount capture that cannot be parsed as a float is
still emitted, but with confidence 0.3 (the early `cleaned_value is None`
return), not 0.6; likewise a date capture matching no configured format is
emitted with confidence 0.3, not 0.5. -/
theorem unparseable_confidence_spec (rawA rawD : String)
    (ha : clean_value "total_amount" (pyStrip rawA) = Val.none)
    (hd : clean_value "date_of_deposit" (pyStrip rawD) = Val.none) :
    (field_from_match "total_amount" rawA).confidence = 3/10
    ∧ (field_from_match "total_amount" rawA).value = Val.none
    ∧ (field_from_match "date_of_deposit" rawD).confidence = 3/10
    ∧ (field_from_match "date_of_deposit" rawD).value = Val.none := by
  unfold field_from_match
  dsimp only
  rw [ha, hd]
  refine ⟨?_, rfl, ?_, rfl⟩
  · unfold calculate_field_confidence
    rw [if_pos rfl]
  · unfold calculate_field_confidence
    rw [if_pos rfl]

/-- Counterexample for C8 as stated: the capture `","` matches the amount
pattern's group `[0-9,]+` but parses as no float, and is emitted at 0.3, not
0.6; the capture `"99-99-9999"` matches the date pattern but no configured
format, and is emitted at 0.3, not 0.5. -/
theorem unparseable_confidence_cex :
    parse_amount "," = Option.none
    ∧ (field_from_match "total_amount" ",").confidence = 3/10
    ∧ ¬ (field_from_match "total_amount" ",").confidence = 6/10
    ∧ parse_date "99-99-9999" = Option.none
    ∧ (field_from_match "date_of_deposit" "99-99-9999").confidence = 3/10
    ∧ ¬ (field_from_match "date_of_deposit" "99-99-9999").confidence = 5/10 := by
  refine ⟨by decide, ?_, ?_, by decide, ?_, ?_⟩
  · exact (unparseable_confidence_spec "," "99-99-9999" (by decide) (by decide)).1
  · rw [(unparseable_confidence_spec "," "99-99-9999" (by decide) (by decide)).1]
    norm_num
  · exact (unparseable_confidence_spec "," "99-99-9999" (by decide) (by decide)).2.2.1
  · rw [(unparseable_confidence_spec "," "99-99-9999" (by decide) (by decide)).2.2.1]
    norm_num

/-- Witness for C8's theorem at the unparseable captures. -/
theorem unparseable_confidence_spec_witness :
    clean_value "total_amount" (pyStrip ",") = Val.none
    ∧ clean_value "date_of_deposit" (pyStrip "99-99-9999") = Val.none
    ∧ (field_from_match "total_amount" ",").confidence = 3/10 :=
  ⟨by decide, by decide,
    (unparseable_confidence_spec "," "99-99-9999" (by decide) (by decide)).1⟩
